import Mathlib

/-
Verification of the vizzio chatbot core (src/packages/vizzio-chatbot/chatbot.py).

Shallow embedding notes:
- A websocket connection is identified by a natural number (`Conn`); its only
  relevant attribute is whether a send to it succeeds, supplied as a function
  `ok : Conn → Bool` fixed for a run.
- Python exceptions are modelled explicitly: `json.loads` on non-JSON text
  raises `jsonDecodeError`; calling `.get` on a non-dict raises
  `attributeError`; `list.remove` of an absent element raises `valueError`.
  Only `WebSocketDisconnect` is caught by the endpoint, modelled by the
  end of the inbound frame list.
- `uuid.uuid4()` and `datetime.now().isoformat()` are nondeterministic
  fresh-value sources; they are modelled by a counter `gen` threaded through
  the state (ids "msg-<n>" / "notif-<n>", timestamps "t<n>").  No claim
  depends on the concrete id/timestamp text.
- Python `str.lower`/`str.upper` are modelled by the ASCII character maps
  `Char.toLower`/`Char.toUpper`; every keyword the responder tests is ASCII.
- An inbound frame is modelled by its parse outcome: text that is not JSON,
  JSON that is not an object, or an object with optional string fields
  "type" and "content" (other keys are never consulted by the code).
-/

-- ============================================================================
-- Python primitives
-- ============================================================================

inductive PyError
  | valueError
  | jsonDecodeError
  | attributeError
deriving DecidableEq

abbrev Conn := Nat

-- `needle` is a prefix of `hay` (on character lists).
def charsPre : List Char → List Char → Bool
  | [], _ => true
  | _ :: _, [] => false
  | a :: as, b :: bs => a == b && charsPre as bs

-- `needle` occurs somewhere in `hay` (on character lists).
def charsFind : List Char → List Char → Bool
  | needle, [] => charsPre needle []
  | needle, b :: bs => charsPre needle (b :: bs) || charsFind needle bs

-- Python `needle in hay` substring test.
def pyIn (needle hay : String) : Bool :=
  charsFind needle.data hay.data

-- Python `str.lower` (ASCII), as a character-by-character map.
def pyLower (s : String) : String :=
  ⟨s.data.map Char.toLower⟩

-- Python `str.upper` (ASCII), as a character-by-character map.
def pyUpper (s : String) : String :=
  ⟨s.data.map Char.toUpper⟩

-- Python `list.remove(x)`: removes the first occurrence of `x`,
-- raises ValueError when `x` is absent.
def pyRemove : List Conn → Conn → Except PyError (List Conn)
  | [], _ => .error .valueError
  | a :: rest, x =>
    if a = x then .ok rest
    else Except.map (fun l => a :: l) (pyRemove rest x)

-- Python slice `l[i:]` (drop before index i, negative i counted from the end).
def pySliceFrom (l : List α) (i : Int) : List α :=
  if i < 0 then l.drop (max 0 ((l.length : Int) + i)).toNat
  else l.drop i.toNat

-- ============================================================================
-- MODELS (chatbot.py lines 23-37)
-- ============================================================================

structure ChatMessage where
  id : String
  sender : String
  content : String
  timestamp : String
  read : Bool
  status : String := "sent"
  type : String := "text"
  metadata : Option (List (String × String)) := none
deriving DecidableEq

structure BuildNotification where
  buildId : String
  workflow : String
  status : String
  details : List (String × String)
deriving DecidableEq

-- Parse outcome of one inbound websocket text frame.
inductive InFrame
  | notJson
  | jsonNonDict
  | jsonDict (type : Option String) (content : Option String)
deriving DecidableEq

-- Observable events of a run (appends, broadcast attempts, the bot delay).
inductive Ev
  | recv (f : InFrame)
  | append (m : ChatMessage)
  | bcast (targets : List Conn) (m : ChatMessage)
  | sleep (secs : Nat)
deriving DecidableEq

-- IN-MEMORY STORAGE (chatbot.py lines 43-44) plus the freshness counter.
structure ServerState where
  messages : List ChatMessage
  active_connections : List Conn
  gen : Nat
deriving DecidableEq

-- Result of running a piece of the server: either it returns normally or a
-- Python exception escapes; both carry the mutated global state and events.
inductive StepResult
  | next (st : ServerState) (evs : List Ev)
  | exn (e : PyError) (st : ServerState) (evs : List Ev)
deriving DecidableEq

-- Result of the notify endpoint: `ack` is the returned success flag.
inductive NotifyResult
  | ok (st : ServerState) (evs : List Ev) (ack : Bool)
  | exn (e : PyError) (st : ServerState) (evs : List Ev)
deriving DecidableEq

-- ============================================================================
-- CONNECTION REGISTRY / broadcast (chatbot.py lines 86-96)
-- ============================================================================

-- The send loop of `broadcast`: try to send to each connection in order;
-- a failed send is caught and the connection collected.  Returns the
-- connections attempted and the `disconnected` list, in order.
def sendLoop (ok : Conn → Bool) : List Conn → List Conn × List Conn
  | [] => ([], [])
  | c :: rest =>
    let r := sendLoop ok rest
    (c :: r.1, if ok c then r.2 else c :: r.2)

-- The cleanup loop of `broadcast`: `for conn in disconnected:
-- active_connections.remove(conn)`.
def removeAll : List Conn → List Conn → Except PyError (List Conn)
  | conns, [] => .ok conns
  | conns, d :: ds =>
    match pyRemove conns d with
    | .error e => .error e
    | .ok conns1 => removeAll conns1 ds

-- `broadcast` (chatbot.py lines 86-96): attempt delivery to every registered
-- connection, then remove each connection whose send failed.
def broadcast (conns : List Conn) (ok : Conn → Bool) : Except PyError (List Conn) :=
  removeAll conns (sendLoop ok conns).2

-- ============================================================================
-- AUTO-RESPONDER (chatbot.py lines 102-185)
-- ============================================================================

def resp_build : String :=
  "📊 **Status de Builds**\n\n✅ CI/CD Pipeline (main): SUCCESS\n⏱️ Duração: 2m 15s\n🧪 Testes: 50/50 passed\n📈 Coverage: 85%\n\n✅ Release (v1.0.0): SUCCESS\n⏱️ Publicado no crates.io\n\n⚠️ Deploy (develop): RUNNING...\n⏳ Tempo decorrido: 1m 30s"

def resp_error : String :=
  "❌ **Erros Detectados**\n\n🔴 Deploy (feature/new-api): FAILED\n\nErro:\n```\nTest failed: authentication_test\nTimeout after 5000ms\n```\n\nArquivo: src/auth.rs:145\n\nSolução sugerida:\nAjuste o timeout ou revise a lógica de autenticação."

def resp_success : String :=
  "✅ **Todos os Builds Passaram!**\n\n🏆 Taxa de Sucesso: 96.67%\n📈 Tendência: +2.3% desde ontem\n\n🚀 Últimas releases:\n• v2.1.0 - Released 2h ago\n• v2.0.9 - Released 1d ago\n• v2.0.8 - Released 2d ago\n\nParabéns! 🎉"

def resp_help : String :=
  "📚 Aqui estão os comandos disponíveis:\n\n• **build status** - Ver status dos builds\n• **erros** - Listar erros recentes\n• **success** - Mostrar builds bem-sucedidos\n• **deploy** - Status de deployments\n• **metrics** - Métricas gerais"

def resp_default : String :=
  "👋 Oi! Sou o VIZZIO Bot. Posso ajudar com:\n\n🔍 **build status** - Ver status dos builds\n⚠️ **erros** - Listar erros recentes\n✅ **success** - Mostrar builds bem-sucedidos\n📊 **metrics** - Métricas gerais\n🚀 **deploy** - Status de deployments\n\nTente: \"build status\", \"erros\", \"success\" "

-- The keyword classifier of `handle_bot_response` (lines 104-172): returns
-- (response content, message type).  Note the fourth branch tests "?"
-- against the raw `user_message`, exactly as the source does.
def respond (userMessage : String) : String × String :=
  if pyIn "build" (pyLower userMessage) || pyIn "status" (pyLower userMessage) then
    (resp_build, "notification")
  else if pyIn "erro" (pyLower userMessage) || pyIn "fail" (pyLower userMessage) then
    (resp_error, "alert")
  else if pyIn "sucesso" (pyLower userMessage) || pyIn "success" (pyLower userMessage) then
    (resp_success, "success")
  else if pyIn "help" (pyLower userMessage) || pyIn "ajuda" (pyLower userMessage)
      || pyIn "?" userMessage then
    (resp_help, "text")
  else
    (resp_default, "text")

-- The user ChatMessage built at lines 65-72 (status left at its default "sent").
def mkUserMsg (content : String) (g : Nat) : ChatMessage :=
  { id := "msg-" ++ toString g
    sender := "user"
    content := content
    timestamp := "t" ++ toString g
    read := true
    type := "text" }

-- The bot ChatMessage built at lines 174-182.
def mkBotMsg (userMessage : String) (g : Nat) : ChatMessage :=
  { id := "msg-" ++ toString g
    sender := "bot"
    content := (respond userMessage).1
    timestamp := "t" ++ toString g
    read := false
    status := "delivered"
    type := (respond userMessage).2 }

-- `handle_bot_response` (lines 102-185): build the bot reply, append it,
-- broadcast it.
def handle_bot_response (userMessage : String) (ok : Conn → Bool)
    (st : ServerState) : StepResult :=
  let botMsg := mkBotMsg userMessage st.gen
  let st1 : ServerState := ⟨st.messages ++ [botMsg], st.active_connections, st.gen + 1⟩
  match broadcast st1.active_connections ok with
  | .error e => .exn e st1 [.append botMsg]
  | .ok conns =>
    .next ⟨st1.messages, conns, st1.gen⟩
      [.append botMsg, .bcast st1.active_connections botMsg]

-- ============================================================================
-- SESSION ENGINE (chatbot.py lines 50-84)
-- ============================================================================

-- One iteration of the `while True` receive loop, after `receive_text`
-- has produced a frame.  `json.loads` of non-JSON text raises
-- JSONDecodeError; `.get` on a non-dict raises AttributeError; neither is
-- caught (the endpoint only catches WebSocketDisconnect).
def handleFrame (ok : Conn → Bool) (f : InFrame) (st : ServerState) : StepResult :=
  match f with
  | .notJson => .exn .jsonDecodeError st []
  | .jsonNonDict => .exn .attributeError st []
  | .jsonDict ty content? =>
    if ty = some "send-message" then
      let content := content?.getD ""
      let userMsg := mkUserMsg content st.gen
      let st1 : ServerState := ⟨st.messages ++ [userMsg], st.active_connections, st.gen + 1⟩
      match broadcast st1.active_connections ok with
      | .error e => .exn e st1 [.append userMsg]
      | .ok conns =>
        match handle_bot_response content ok ⟨st1.messages, conns, st1.gen⟩ with
        | .next st3 evs =>
          .next st3 ([.append userMsg, .bcast st1.active_connections userMsg, .sleep 1] ++ evs)
        | .exn e st3 evs =>
          .exn e st3 ([.append userMsg, .bcast st1.active_connections userMsg, .sleep 1] ++ evs)
    else .next st []

-- The receive loop over the whole inbound frame sequence; an uncaught
-- exception aborts the loop with the remaining frames unprocessed.
def sessionLoop (ok : Conn → Bool) : List InFrame → ServerState → StepResult
  | [], st => .next st []
  | f :: fs, st =>
    match handleFrame ok f st with
    | .exn e st1 evs => .exn e st1 (.recv f :: evs)
    | .next st1 evs =>
      match sessionLoop ok fs st1 with
      | .next st2 evs2 => .next st2 ((.recv f :: evs) ++ evs2)
      | .exn e st2 evs2 => .exn e st2 ((.recv f :: evs) ++ evs2)

-- Prepend a received-frame event to a run result.
def consRecv (f : InFrame) : StepResult → StepResult
  | .next st evs => .next st (.recv f :: evs)
  | .exn e st evs => .exn e st (.recv f :: evs)

-- `websocket_endpoint` (lines 50-84): accept + register, run the receive
-- loop; when the loop ends by WebSocketDisconnect the handler removes the
-- connection with `list.remove` (which itself may raise ValueError); when
-- any other exception escapes the loop, no cleanup runs.
def websocket_endpoint (ok : Conn → Bool) (ws : Conn) (frames : List InFrame)
    (st : ServerState) : StepResult :=
  match sessionLoop ok frames ⟨st.messages, st.active_connections ++ [ws], st.gen⟩ with
  | .exn e st1 evs => .exn e st1 evs
  | .next st1 evs =>
    match pyRemove st1.active_connections ws with
    | .error e => .exn e st1 evs
    | .ok conns => .next ⟨st1.messages, conns, st1.gen⟩ evs

-- ============================================================================
-- NOTIFICATION INTAKE (chatbot.py lines 191-231)
-- ============================================================================

def notifEmoji (status : String) : String :=
  (([("success", "✅"), ("failure", "❌"), ("running", "🔄"),
     ("cancelled", "⚠️")] : List (String × String)).lookup status).getD "📢"

def notifKind (status : String) : String :=
  (([("failure", "alert"), ("success", "success")] : List (String × String)).lookup
    status).getD "notification"

-- The f-string content of lines 202-207, with `details.get` defaults.
def notifContent (n : BuildNotification) : String :=
  notifEmoji n.status ++ " **" ++ n.workflow ++ "** - " ++ pyUpper n.status ++
    "\n\n📋 Build ID: " ++ n.buildId ++
    "\n⏱️ Duração: " ++ ((n.details.lookup "duration").getD "N/A") ++ "s" ++
    "\n🧪 Testes: " ++ ((n.details.lookup "testsPassed").getD "0") ++ "/" ++
    ((n.details.lookup "testsRun").getD "0") ++ " passed" ++
    "\n📈 Coverage: " ++ ((n.details.lookup "coverage").getD "0") ++ "%"

-- The bot ChatMessage built at lines 214-226.
def notifMsg (n : BuildNotification) (g : Nat) : ChatMessage :=
  { id := "notif-" ++ toString g
    sender := "bot"
    content := notifContent n
    timestamp := "t" ++ toString g
    read := false
    status := "delivered"
    type := notifKind n.status
    metadata := some [("buildId", n.buildId), ("workflow", n.workflow)] }

-- `notify_build` (lines 191-231): build the entry, append, broadcast,
-- return the success acknowledgement.
def notify_build (n : BuildNotification) (ok : Conn → Bool)
    (st : ServerState) : NotifyResult :=
  let botMsg := notifMsg n st.gen
  let st1 : ServerState := ⟨st.messages ++ [botMsg], st.active_connections, st.gen + 1⟩
  match broadcast st1.active_connections ok with
  | .error e => .exn e st1 [.append botMsg]
  | .ok conns =>
    .ok ⟨st1.messages, conns, st1.gen⟩
      [.append botMsg, .bcast st1.active_connections botMsg] true

-- ============================================================================
-- QUERY ROUTES (chatbot.py lines 233-242)
-- ============================================================================

-- `get_messages` (lines 233-236): `return messages[-limit:]`.
def get_messages (msgs : List ChatMessage) (limit : Int) : List ChatMessage :=
  pySliceFrom msgs (-limit)

-- The route with its default `limit: int = 50`.
def get_messages_default (msgs : List ChatMessage) : List ChatMessage :=
  get_messages msgs 50

-- `get_unread` (lines 238-242):
-- `sum(1 for msg in messages if not msg.read and msg.sender == "bot")`.
def get_unread (msgs : List ChatMessage) : Nat :=
  List.foldl (fun acc msg => if !msg.read && msg.sender == "bot" then acc + 1 else acc)
    0 msgs

-- A concrete entry used by concrete evaluations below.
def sampleMsg : ChatMessage :=
  mkUserMsg "hello" 0

-- A concrete build notification used by concrete evaluations below.
def sampleNotif : BuildNotification :=
  ⟨"42", "CI", "failure", []⟩

-- ============================================================================
-- Registry lemmas
-- ============================================================================

theorem sendLoop_eq (ok : Conn → Bool) (l : List Conn) :
    sendLoop ok l = (l, l.filter (fun c => !ok c)) := by
  induction l with
  | nil => rfl
  | cons a l ih =>
    simp only [sendLoop, ih, List.filter_cons]
    cases h : ok a <;> simp [h]

theorem removeAll_cons_of_ne (a : Conn) (cs xs : List Conn)
    (h : ∀ x ∈ xs, x ≠ a) :
    removeAll (a :: cs) xs = Except.map (fun l => a :: l) (removeAll cs xs) := by
  induction xs generalizing cs with
  | nil => rfl
  | cons x xs ih =>
    have hax : ¬ (a = x) := by
      intro hh
      exact h x (by simp) hh.symm
    simp only [removeAll, pyRemove, if_neg hax]
    cases hr : pyRemove cs x with
    | error e => simp [hr, Except.map]
    | ok cs1 =>
      simp only [hr, Except.map]
      exact ih cs1 (fun y hy => h y (by simp [hy]))

theorem removeAll_filter (ok : Conn → Bool) (l : List Conn) :
    removeAll l (l.filter (fun c => !ok c)) = .ok (l.filter ok) := by
  induction l with
  | nil => rfl
  | cons a l ih =>
    cases h : ok a with
    | true =>
      have hne : ∀ x ∈ l.filter (fun c => !ok c), x ≠ a := by
        intro x hx hxa
        have hfx := (List.mem_filter.mp hx).2
        rw [hxa, h] at hfx
        simp at hfx
      simp only [List.filter_cons, h, Bool.not_true, if_false, if_true,
        Bool.false_eq_true, ite_false, ite_true]
      rw [removeAll_cons_of_ne a l _ hne, ih]
      rfl
    | false =>
      simp only [List.filter_cons, h, Bool.not_false, Bool.false_eq_true,
        ite_false, ite_true]
      simp [removeAll, pyRemove, ih]

theorem broadcast_eq_filter (conns : List Conn) (ok : Conn → Bool) :
    broadcast conns ok = .ok (conns.filter ok) := by
  unfold broadcast
  rw [sendLoop_eq]
  exact removeAll_filter ok conns

theorem pyRemove_not_mem (c : Conn) (l : List Conn) (h : c ∉ l) :
    pyRemove l c = .error .valueError := by
  induction l with
  | nil => rfl
  | cons a l ih =>
    have hac : ¬ (a = c) := by
      intro hh
      exact h (by simp [hh])
    have hcl : c ∉ l := fun hh => h (List.mem_cons_of_mem a hh)
    simp [pyRemove, hac, ih hcl, Except.map]

theorem pyRemove_append (c : Conn) (l1 l2 : List Conn) (h : c ∉ l1) :
    pyRemove (l1 ++ c :: l2) c = .ok (l1 ++ l2) := by
  induction l1 with
  | nil => simp [pyRemove]
  | cons a l1 ih =>
    have hac : ¬ (a = c) := by
      intro hh
      exact h (by simp [hh])
    have hcl : c ∉ l1 := fun hh => h (List.mem_cons_of_mem a hh)
    simp [pyRemove, hac, ih hcl, Except.map]

-- ============================================================================
-- Claim C4
-- ============================================================================

/-- Claim C4: for every registry state and liveness assignment, `broadcast`
attempts delivery to every registered connection (the send loop visits all of
them, a failure being caught and collected rather than aborting the pass),
and after the pass exactly the connections whose delivery failed have been
removed while all others remain registered; on an empty registry it is a
no-op. -/
theorem C4_thm (conns : List Conn) (ok : Conn → Bool) :
    (sendLoop ok conns).1 = conns ∧
    broadcast conns ok = .ok (conns.filter ok) ∧
    broadcast [] ok = .ok [] :=
  ⟨by rw [sendLoop_eq], broadcast_eq_filter conns ok, broadcast_eq_filter [] ok⟩

-- ============================================================================
-- Claim C2
-- ============================================================================

/-- Claim C2 (amended): unregistering is Python `list.remove` — removing a
connection that is present removes its first occurrence, but removing an
already-absent connection raises ValueError; it is not an idempotent no-op. -/
theorem C2_thm (c : Conn) (l : List Conn) :
    (c ∉ l → pyRemove l c = .error .valueError) ∧
    (∀ l1 l2, c ∉ l1 → l = l1 ++ c :: l2 → pyRemove l c = .ok (l1 ++ l2)) :=
  ⟨pyRemove_not_mem c l,
   fun l1 l2 h1 h2 => by
    subst h2
    exact pyRemove_append c l1 l2 h1⟩

/-- Witness for C2_thm at concrete inputs. -/
theorem C2_wit :
    pyRemove [1, 2] 0 = .error .valueError ∧ pyRemove [1, 0, 2] 0 = .ok [1, 2] :=
  ⟨(C2_thm 0 [1, 2]).1 (by decide),
   (C2_thm 0 [1, 0, 2]).2 [1] [2] (by decide) rfl⟩

/-- Counterexample to C2 as stated: a session whose own sends fail is pruned
from the registry by the broadcast of its own message, and when its
disconnect handler then unregisters it, `list.remove` raises ValueError
instead of being a no-op. -/
theorem C2_cex :
    websocket_endpoint (fun _ => false) 0
        [InFrame.jsonDict (some "send-message") (some "hi")] ⟨[], [], 0⟩ =
      .exn .valueError ⟨[mkUserMsg "hi" 0, mkBotMsg "hi" 1], [], 2⟩
        [.recv (InFrame.jsonDict (some "send-message") (some "hi")),
         .append (mkUserMsg "hi" 0), .bcast [0] (mkUserMsg "hi" 0), .sleep 1,
         .append (mkBotMsg "hi" 1), .bcast [] (mkBotMsg "hi" 1)] := rfl

-- ============================================================================
-- Session engine lemmas
-- ============================================================================

theorem handleFrame_send_eq (ok : Conn → Bool) (c? : Option String) (st : ServerState) :
    handleFrame ok (.jsonDict (some "send-message") c?) st =
      .next ⟨st.messages ++ [mkUserMsg (c?.getD "") st.gen, mkBotMsg (c?.getD "") (st.gen + 1)],
             st.active_connections.filter ok, st.gen + 2⟩
        [.append (mkUserMsg (c?.getD "") st.gen),
         .bcast st.active_connections (mkUserMsg (c?.getD "") st.gen), .sleep 1,
         .append (mkBotMsg (c?.getD "") (st.gen + 1)),
         .bcast (st.active_connections.filter ok) (mkBotMsg (c?.getD "") (st.gen + 1))] := by
  simp only [handleFrame, if_pos rfl, handle_bot_response, broadcast_eq_filter]
  simp [List.filter_filter, List.append_assoc]

-- ============================================================================
-- Claim C3
-- ============================================================================

/-- Claim C3: on an open session, a frame of type "send-message" with content
`c` makes the log gain exactly two entries in order — a user entry
(sender=user, read=true, kind=text, literal content `c`), then after the
1-second delay a bot entry (read=false, status=delivered) whose content and
kind come from the auto-responder on `c`; each entry is broadcast to the
connections registered at the moment it is appended (the user entry strictly
before the responder runs, the bot entry to the registry as pruned by the
first broadcast). -/
theorem C3_thm (ok : Conn → Bool) (st : ServerState) (c : String) :
    handleFrame ok (.jsonDict (some "send-message") (some c)) st =
      .next ⟨st.messages ++ [mkUserMsg c st.gen, mkBotMsg c (st.gen + 1)],
             st.active_connections.filter ok, st.gen + 2⟩
        [.append (mkUserMsg c st.gen),
         .bcast st.active_connections (mkUserMsg c st.gen), .sleep 1,
         .append (mkBotMsg c (st.gen + 1)),
         .bcast (st.active_connections.filter ok) (mkBotMsg c (st.gen + 1))] ∧
    (mkUserMsg c st.gen).sender = "user" ∧
    (mkUserMsg c st.gen).read = true ∧
    (mkUserMsg c st.gen).type = "text" ∧
    (mkUserMsg c st.gen).content = c ∧
    (mkBotMsg c (st.gen + 1)).sender = "bot" ∧
    (mkBotMsg c (st.gen + 1)).read = false ∧
    (mkBotMsg c (st.gen + 1)).status = "delivered" ∧
    (mkBotMsg c (st.gen + 1)).content = (respond c).1 ∧
    (mkBotMsg c (st.gen + 1)).type = (respond c).2 :=
  ⟨by simpa using handleFrame_send_eq ok (some c) st,
   rfl, rfl, rfl, rfl, rfl, rfl, rfl, rfl, rfl⟩

-- ============================================================================
-- Claim C9
-- ============================================================================

/-- Claim C9: a "send-message" frame with no content field is not rejected:
the session appends and broadcasts a user entry whose content is the empty
string, and the responder is then invoked on that empty string. -/
theorem C9_thm (ok : Conn → Bool) (st : ServerState) :
    handleFrame ok (.jsonDict (some "send-message") none) st =
      .next ⟨st.messages ++ [mkUserMsg "" st.gen, mkBotMsg "" (st.gen + 1)],
             st.active_connections.filter ok, st.gen + 2⟩
        [.append (mkUserMsg "" st.gen),
         .bcast st.active_connections (mkUserMsg "" st.gen), .sleep 1,
         .append (mkBotMsg "" (st.gen + 1)),
         .bcast (st.active_connections.filter ok) (mkBotMsg "" (st.gen + 1))] ∧
    (mkUserMsg "" st.gen).content = "" ∧
    (mkBotMsg "" (st.gen + 1)).content = (respond "").1 ∧
    (mkBotMsg "" (st.gen + 1)).type = (respond "").2 :=
  ⟨by simpa using handleFrame_send_eq ok none st, rfl, rfl, rfl⟩

-- ============================================================================
-- Claim C10
-- ============================================================================

/-- Claim C10: within one connection's session, handling is strictly
serialized — for two consecutive "send-message" frames the events are, in
order: receive the first frame, append and broadcast its user entry, the
1-second delay, append and broadcast its bot reply, and only then receive
the second frame; in particular the bot reply to the first message is
appended to the log before the user entry of the second. -/
theorem C10_thm (ok : Conn → Bool) (st : ServerState) (c1 c2 : String) :
    sessionLoop ok
        [.jsonDict (some "send-message") (some c1),
         .jsonDict (some "send-message") (some c2)] st =
      .next ⟨st.messages ++ [mkUserMsg c1 st.gen, mkBotMsg c1 (st.gen + 1),
                             mkUserMsg c2 (st.gen + 2), mkBotMsg c2 (st.gen + 3)],
             st.active_connections.filter ok, st.gen + 4⟩
        [.recv (.jsonDict (some "send-message") (some c1)),
         .append (mkUserMsg c1 st.gen),
         .bcast st.active_connections (mkUserMsg c1 st.gen),
         .sleep 1,
         .append (mkBotMsg c1 (st.gen + 1)),
         .bcast (st.active_connections.filter ok) (mkBotMsg c1 (st.gen + 1)),
         .recv (.jsonDict (some "send-message") (some c2)),
         .append (mkUserMsg c2 (st.gen + 2)),
         .bcast (st.active_connections.filter ok) (mkUserMsg c2 (st.gen + 2)),
         .sleep 1,
         .append (mkBotMsg c2 (st.gen + 3)),
         .bcast (st.active_connections.filter ok) (mkBotMsg c2 (st.gen + 3))] := by
  simp [sessionLoop, handleFrame_send_eq, List.filter_filter, List.append_assoc]

-- ============================================================================
-- Claim C1
-- ============================================================================

/-- Claim C1 (amended): a frame that parses as a JSON object whose type is
not "send-message" is dropped and the loop continues with the next frame;
but a frame whose text is not valid JSON (or is JSON that is not an object)
raises an uncaught exception that terminates the session loop — the
remaining frames are never processed and, on that path, the endpoint exits
without unregistering the connection. -/
theorem C1_thm (ok : Conn → Bool) (st : ServerState) (fs : List InFrame)
    (ty c : Option String) :
    (ty ≠ some "send-message" →
      sessionLoop ok (.jsonDict ty c :: fs) st =
        consRecv (.jsonDict ty c) (sessionLoop ok fs st)) ∧
    sessionLoop ok (.notJson :: fs) st = .exn .jsonDecodeError st [.recv .notJson] ∧
    sessionLoop ok (.jsonNonDict :: fs) st = .exn .attributeError st [.recv .jsonNonDict] ∧
    (∀ ws : Conn, websocket_endpoint ok ws (.notJson :: fs) st =
      .exn .jsonDecodeError ⟨st.messages, st.active_connections ++ [ws], st.gen⟩
        [.recv .notJson]) := by
  refine ⟨?_, rfl, rfl, fun ws => rfl⟩
  intro h
  simp only [sessionLoop, handleFrame, if_neg h]
  cases hr : sessionLoop ok fs st <;> simp [consRecv]

/-- Witness for C1_thm at concrete inputs. -/
theorem C1_wit :
    sessionLoop (fun _ => true) [InFrame.jsonDict (some "ping") none] ⟨[], [], 0⟩ =
      consRecv (InFrame.jsonDict (some "ping") none)
        (sessionLoop (fun _ => true) [] ⟨[], [], 0⟩) ∧
    sessionLoop (fun _ => true) [InFrame.notJson] ⟨[], [], 0⟩ =
      .exn .jsonDecodeError ⟨[], [], 0⟩ [.recv .notJson] ∧
    sessionLoop (fun _ => true) [InFrame.jsonNonDict] ⟨[], [], 0⟩ =
      .exn .attributeError ⟨[], [], 0⟩ [.recv .jsonNonDict] ∧
    websocket_endpoint (fun _ => true) 0 [InFrame.notJson] ⟨[], [], 0⟩ =
      .exn .jsonDecodeError ⟨[], [0], 0⟩ [.recv .notJson] := by
  have h := C1_thm (fun _ => true) ⟨[], [], 0⟩ [] (some "ping") none
  exact ⟨h.1 (by decide), h.2.1, h.2.2.1, h.2.2.2 0⟩

/-- Counterexample to C1 as stated: a frame whose body is not valid JSON is
not dropped — the session loop crashes with an uncaught JSONDecodeError, the
following frame is never received, and the connection stays registered. -/
theorem C1_cex :
    sessionLoop (fun _ => true)
        [InFrame.notJson, InFrame.jsonDict (some "send-message") (some "hi")]
        ⟨[], [0], 0⟩ =
      .exn .jsonDecodeError ⟨[], [0], 0⟩ [.recv .notJson] := rfl

-- ============================================================================
-- Claim C5
-- ============================================================================

/-- Claim C5: the auto-responder is a deterministic stateless classifier over
the lower-cased input, evaluated in fixed priority order with first match
winning: (1) "build"/"status" → kind notification; (2) else "erro"/"fail" →
kind alert; (3) else "sucesso"/"success" → kind success; (4) else
"help"/"ajuda"/literal "?" → kind text via the help template; (5) otherwise
kind text via the default template. -/
theorem C5_thm (s : String) :
    ((pyIn "build" (pyLower s) || pyIn "status" (pyLower s)) = true →
      respond s = (resp_build, "notification")) ∧
    ((pyIn "build" (pyLower s) || pyIn "status" (pyLower s)) = false →
      (pyIn "erro" (pyLower s) || pyIn "fail" (pyLower s)) = true →
      respond s = (resp_error, "alert")) ∧
    ((pyIn "build" (pyLower s) || pyIn "status" (pyLower s)) = false →
      (pyIn "erro" (pyLower s) || pyIn "fail" (pyLower s)) = false →
      (pyIn "sucesso" (pyLower s) || pyIn "success" (pyLower s)) = true →
      respond s = (resp_success, "success")) ∧
    ((pyIn "build" (pyLower s) || pyIn "status" (pyLower s)) = false →
      (pyIn "erro" (pyLower s) || pyIn "fail" (pyLower s)) = false →
      (pyIn "sucesso" (pyLower s) || pyIn "success" (pyLower s)) = false →
      (pyIn "help" (pyLower s) || pyIn "ajuda" (pyLower s) || pyIn "?" s) = true →
      respond s = (resp_help, "text")) ∧
    ((pyIn "build" (pyLower s) || pyIn "status" (pyLower s)) = false →
      (pyIn "erro" (pyLower s) || pyIn "fail" (pyLower s)) = false →
      (pyIn "sucesso" (pyLower s) || pyIn "success" (pyLower s)) = false →
      (pyIn "help" (pyLower s) || pyIn "ajuda" (pyLower s) || pyIn "?" s) = false →
      respond s = (resp_default, "text")) := by
  refine ⟨fun h1 => ?_, fun h1 h2 => ?_, fun h1 h2 h3 => ?_,
    fun h1 h2 h3 h4 => ?_, fun h1 h2 h3 h4 => ?_⟩
  · simp [respond, h1]
  · simp [respond, h1, h2]
  · simp [respond, h1, h2, h3]
  · simp [respond, h1, h2, h3, h4]
  · simp [respond, h1, h2, h3, h4]

/-- Witness for C5_thm at the five example inputs of the spec. -/
theorem C5_wit :
    respond "what is the build status?" = (resp_build, "notification") ∧
    respond "there was an erro" = (resp_error, "alert") ∧
    respond "success!" = (resp_success, "success") ∧
    respond "help?" = (resp_help, "text") ∧
    respond "hello" = (resp_default, "text") :=
  ⟨(C5_thm "what is the build status?").1 (by decide),
   (C5_thm "there was an erro").2.1 (by decide) (by decide),
   (C5_thm "success!").2.2.1 (by decide) (by decide) (by decide),
   (C5_thm "help?").2.2.2.1 (by decide) (by decide) (by decide) (by decide),
   (C5_thm "hello").2.2.2.2 (by decide) (by decide) (by decide) (by decide)⟩

-- ============================================================================
-- Claim C6
-- ============================================================================

/-- Claim C6: for every well-formed build notification, intake appends
exactly one bot entry (read=false, status=delivered, metadata containing
buildId and workflow), broadcasts it to the registered connections, maps the
status to a kind by the fixed table failure→alert, success→success,
otherwise→notification, substitutes the defined placeholders for missing
detail fields instead of failing, and returns a success acknowledgement
unconditionally. -/
theorem C6_thm (n : BuildNotification) (ok : Conn → Bool) (st : ServerState) :
    notify_build n ok st =
      .ok ⟨st.messages ++ [notifMsg n st.gen], st.active_connections.filter ok, st.gen + 1⟩
        [.append (notifMsg n st.gen), .bcast st.active_connections (notifMsg n st.gen)]
        true ∧
    (notifMsg n st.gen).sender = "bot" ∧
    (notifMsg n st.gen).read = false ∧
    (notifMsg n st.gen).status = "delivered" ∧
    (notifMsg n st.gen).metadata = some [("buildId", n.buildId), ("workflow", n.workflow)] ∧
    (n.status = "failure" → (notifMsg n st.gen).type = "alert") ∧
    (n.status = "success" → (notifMsg n st.gen).type = "success") ∧
    (n.status ≠ "failure" → n.status ≠ "success" →
      (notifMsg n st.gen).type = "notification") ∧
    (n.details = [] →
      (notifMsg n st.gen).content =
        notifEmoji n.status ++ " **" ++ n.workflow ++ "** - " ++ pyUpper n.status ++
          "\n\n📋 Build ID: " ++ n.buildId ++
          "\n⏱️ Duração: " ++ "N/A" ++ "s" ++
          "\n🧪 Testes: " ++ "0" ++ "/" ++ "0" ++ " passed" ++
          "\n📈 Coverage: " ++ "0" ++ "%") := by
  refine ⟨?_, rfl, rfl, rfl, rfl, fun h => ?_, fun h => ?_, fun h1 h2 => ?_, fun hd => ?_⟩
  · simp only [notify_build, broadcast_eq_filter]
  · simp [notifMsg, notifKind, List.lookup, h]
  · simp [notifMsg, notifKind, List.lookup, h]
  · have hb1 : (n.status == "failure") = false := beq_eq_false_iff_ne.mpr h1
    have hb2 : (n.status == "success") = false := beq_eq_false_iff_ne.mpr h2
    simp [notifMsg, notifKind, List.lookup, hb1, hb2]
  · simp [notifMsg, notifContent, List.lookup, hd]

/-- Witness for C6_thm at the spec's example notification. -/
theorem C6_wit :
    notify_build sampleNotif (fun _ => true) ⟨[], [7], 0⟩ =
      .ok ⟨[notifMsg sampleNotif 0], [7], 1⟩
        [.append (notifMsg sampleNotif 0), .bcast [7] (notifMsg sampleNotif 0)] true ∧
    (notifMsg sampleNotif 0).type = "alert" ∧
    (notifMsg sampleNotif 0).content =
      "❌ **CI** - FAILURE\n\n📋 Build ID: 42\n⏱️ Duração: N/As\n🧪 Testes: 0/0 passed\n📈 Coverage: 0%" := by
  have h := C6_thm sampleNotif (fun _ => true) ⟨[], [7], 0⟩
  refine ⟨by simpa using h.1, h.2.2.2.2.2.1 rfl, ?_⟩
  have hc := h.2.2.2.2.2.2.2.2 rfl
  rw [hc]
  decide

-- ============================================================================
-- Claim C7
-- ============================================================================

/-- Claim C7 (amended): for every positive bound `n`, the recent-messages
query returns exactly the last `min(n, total)` entries of the log in
insertion order (the suffix after dropping `total - n` entries), and the
bound defaults to 50 when no limit is given; a bound of 0 is the one
non-negative value where this fails (Python `messages[-0:]` is the whole
log). -/
theorem C7_thm (msgs : List ChatMessage) (n : Int) :
    (0 < n →
      get_messages msgs n = msgs.drop (msgs.length - n.toNat) ∧
      (get_messages msgs n).length = min n.toNat msgs.length) ∧
    get_messages_default msgs = get_messages msgs 50 := by
  refine ⟨fun hn => ?_, rfl⟩
  have hlt : -n < 0 := by omega
  have heq : (max 0 ((msgs.length : Int) + -n)).toNat = msgs.length - n.toNat := by
    rcases le_total ((msgs.length : Int) + -n) 0 with h | h
    · rw [max_eq_left h]
      omega
    · rw [max_eq_right h]
      omega
  constructor
  · simp only [get_messages, pySliceFrom, if_pos hlt, heq]
  · simp only [get_messages, pySliceFrom, if_pos hlt, heq, List.length_drop]
    omega

/-- Witness for C7_thm at a concrete log and bound. -/
theorem C7_wit :
    get_messages [sampleMsg] 2 = List.drop ([sampleMsg].length - (2 : Int).toNat) [sampleMsg] ∧
    (get_messages [sampleMsg] 2).length = min (2 : Int).toNat [sampleMsg].length :=
  (C7_thm [sampleMsg] 2).1 (by decide)

/-- Counterexample to C7 as stated: with bound 0 (a non-negative bound) on a
one-entry log, the query returns the whole log instead of the last
min(0, 1) = 0 entries. -/
theorem C7_cex :
    get_messages [sampleMsg] 0 = [sampleMsg] ∧ get_messages [sampleMsg] 0 ≠ [] := by
  constructor
  · rfl
  · decide

-- ============================================================================
-- Claim C8
-- ============================================================================

theorem foldl_count (p : ChatMessage → Bool) (msgs : List ChatMessage) (acc : Nat) :
    List.foldl (fun a m => if p m then a + 1 else a) acc msgs =
      acc + (msgs.filter p).length := by
  induction msgs generalizing acc with
  | nil => rfl
  | cons m msgs ih =>
    simp only [List.foldl_cons, List.filter_cons]
    cases h : p m with
    | false =>
      simp [h]
      exact ih acc
    | true =>
      simp [h]
      rw [ih (acc + 1)]
      omega

/-- Claim C8: for every log state, the unread-count query returns exactly
the number of entries with read = false and sender = bot. -/
theorem C8_thm (msgs : List ChatMessage) :
    get_unread msgs = (msgs.filter (fun m => !m.read && m.sender == "bot")).length ∧
    get_unread msgs =
      (msgs.filter (fun m => decide (m.read = false ∧ m.sender = "bot"))).length := by
  have hfun : ∀ m : ChatMessage,
      (!m.read && m.sender == "bot") = decide (m.read = false ∧ m.sender = "bot") := by
    intro m
    cases hm : m.read <;> by_cases hs : m.sender = "bot" <;> simp [hm, hs]
  have h0 : get_unread msgs =
      (msgs.filter (fun m => !m.read && m.sender == "bot")).length := by
    have hf := foldl_count (fun m => !m.read && m.sender == "bot") msgs 0
    simpa [get_unread] using hf
  refine ⟨h0, ?_⟩
  rw [h0]
  simp only [hfun]
